import Mathlib

/-!
Verification of the session streaming relay and its durable store
(`src/app/routers/chat.py`, `src/app/storage/databricks.py`).

Python strings are modelled as `List Char` (named `Str`), dictionaries with
known keys as structures with `Option` fields (a missing key is `none`),
and the Databricks tables as a keyed map of session rows plus an
append-only list of turn rows.  Timestamps are opaque naturals.  The
single-quote escaping applied before SQL interpolation is the identity on
the stored value (the database unescapes it), so it is not modelled.
-/

/-- Python strings, modelled as lists of characters. -/
abbrev Str := List Char

/-- Whitespace test used by the Python `str.split()` and `str.strip()`
with no arguments (ASCII whitespace). -/
def isSpace (c : Char) : Bool :=
  c = ' ' || c = '\t' || c = '\n' || c = '\r' || c = '\x0b' || c = '\x0c'

/-- Worker for `splitWS`: `acc` holds the characters of the word currently
being read, in reverse order. -/
def splitWSGo : Str → Str → List Str
  | [], acc => if acc = [] then [] else [acc.reverse]
  | c :: cs, acc =>
    if isSpace c then
      if acc = [] then splitWSGo cs []
      else acc.reverse :: splitWSGo cs []
    else splitWSGo cs (c :: acc)

theorem splitWSGo_nil (acc : Str) :
    splitWSGo [] acc = if acc = [] then [] else [acc.reverse] := by
  unfold splitWSGo
  rfl

theorem splitWSGo_cons (c : Char) (cs acc : Str) :
    splitWSGo (c :: cs) acc =
      if isSpace c then
        if acc = [] then splitWSGo cs []
        else acc.reverse :: splitWSGo cs []
      else splitWSGo cs (c :: acc) := by
  conv_lhs => unfold splitWSGo

/-- Python `s.split()` with no argument: split on runs of whitespace,
dropping empty tokens (chat.py lines 198, 238). -/
def splitWS (s : Str) : List Str := splitWSGo s []

/-- Python `s.strip()`: drop leading and trailing whitespace
(chat.py lines 403, 509). -/
def strip (s : Str) : Str :=
  ((s.dropWhile isSpace).reverse.dropWhile isSpace).reverse

/-- Outbound wire frames produced by the relay (chat.py).  The JSON
payloads the relay passes through unchanged (sql data, chart spec,
followup questions) are opaque strings; the `complete` frame keeps the
metadata fields the relay itself reads from the final workflow state. -/
inductive Frame where
  | status (status message : Str) (node : Option Str)
  | stream (token : Str) (done : Bool)
  | dataF (data_type payload : Str)
  | clarification (clarification_type message : Str)
  | complete (response : Str) (session_id : Str) (turn_number : Nat)
      (question_type next_agent : Option Str)
  | error (error : Str)
  | pong
  deriving DecidableEq, Repr

/-- Token-by-token streaming of a narrative or greeting string
(chat.py lines 198-205 and 238-245): one `stream` frame per
whitespace-delimited word, the token being the word plus one
trailing space, `done` false. -/
def streamFrames (content : Str) : List Frame :=
  (splitWS content).map (fun w => Frame.stream (w ++ [' ']) false)

/-- Concatenation of the `token` fields of the `stream` frames in a frame
list (the observation the round-trip property is about). -/
def tokensOf (fs : List Frame) : Str :=
  (fs.filterMap (fun f =>
    match f with
    | Frame.stream t _ => some t
    | _ => none)).flatten

/-- Joining a word list with one trailing space after every word: the
string a client reconstructs from the streamed tokens. -/
def joinWords (ws : List Str) : Str :=
  (ws.map (fun w => w ++ [' '])).flatten

theorem tokensOf_streamFrames (content : Str) :
    tokensOf (streamFrames content) = joinWords (splitWS content) := by
  unfold tokensOf streamFrames joinWords
  induction splitWS content with
  | nil => rfl
  | cons w ws ih => simpa using ih

/-- Every word produced by `splitWSGo` from a whitespace-free accumulator
is nonempty and contains no whitespace. -/
theorem splitWSGo_words_clean (s : Str) : ∀ acc : Str,
    (∀ c ∈ acc, ¬ isSpace c) →
    ∀ w ∈ splitWSGo s acc, w ≠ [] ∧ ∀ c ∈ w, ¬ isSpace c := by
  induction s with
  | nil =>
    intro acc hacc w hw
    rw [splitWSGo_nil] at hw
    by_cases h : acc = []
    · simp [h] at hw
    · simp [h] at hw
      subst hw
      refine ⟨by simpa using h, ?_⟩
      intro c hc
      exact hacc c (List.mem_reverse.mp hc)
  | cons c cs ih =>
    intro acc hacc w hw
    rw [splitWSGo_cons] at hw
    by_cases hsp : isSpace c
    · simp [hsp] at hw
      by_cases hae : acc = []
      · simp [hae] at hw
        exact ih [] (by simp) w hw
      · simp [hae] at hw
        rcases hw with hw | hw
        · subst hw
          refine ⟨by simpa using hae, ?_⟩
          intro d hd
          exact hacc d (List.mem_reverse.mp hd)
        · exact ih [] (by simp) w hw
    · simp [hsp] at hw
      refine ih (c :: acc) ?_ w hw
      intro d hd
      rcases List.mem_cons.mp hd with h | h
      · subst h; exact hsp
      · exact hacc d h

/-- Words of `splitWS` are nonempty and whitespace-free. -/
theorem splitWS_words_clean (s : Str) :
    ∀ w ∈ splitWS s, w ≠ [] ∧ ∀ c ∈ w, ¬ isSpace c := by
  exact splitWSGo_words_clean s [] (by simp)

/-- Running the splitter over a whitespace-free word extends the
accumulator with that word. -/
theorem splitWSGo_append_word (w : Str) (hw : ∀ c ∈ w, ¬ isSpace c) :
    ∀ (t acc : Str), splitWSGo (w ++ t) acc = splitWSGo t (w.reverse ++ acc) := by
  induction w with
  | nil => intro t acc; simp
  | cons c cs ih =>
    intro t acc
    have hc : ¬ isSpace c := hw c (by simp)
    have hcs : ∀ d ∈ cs, ¬ isSpace d := fun d hd => hw d (by simp [hd])
    rw [List.cons_append, splitWSGo_cons]
    simp only [hc, if_false, Bool.false_eq_true]
    rw [ih hcs t (c :: acc)]
    simp

/-- Splitting a clean word followed by a space peels off exactly that
word. -/
theorem splitWS_word_space (w t : Str) (hne : w ≠ [])
    (hw : ∀ c ∈ w, ¬ isSpace c) :
    splitWS (w ++ ' ' :: t) = w :: splitWS t := by
  unfold splitWS
  rw [splitWSGo_append_word w hw (' ' :: t) []]
  rw [splitWSGo_cons]
  have hsp : isSpace ' ' = true := by decide
  simp [hsp, hne]

/-- Splitting the space-joined form of a clean word list recovers the
word list. -/
theorem splitWS_joinWords (ws : List Str)
    (h : ∀ w ∈ ws, w ≠ [] ∧ ∀ c ∈ w, ¬ isSpace c) :
    splitWS (joinWords ws) = ws := by
  induction ws with
  | nil => rfl
  | cons w ws ih =>
    have hw := h w (by simp)
    have hws : ∀ v ∈ ws, v ≠ [] ∧ ∀ c ∈ v, ¬ isSpace c :=
      fun v hv => h v (by simp [hv])
    have : joinWords (w :: ws) = w ++ ' ' :: joinWords ws := by
      unfold joinWords
      simp
    rw [this, splitWS_word_space w (joinWords ws) hw.1 hw.2, ih hws]

/-- Session/workflow state dictionary (the opaque AgentState).  Fields the
relay itself reads or writes are explicit; every other key is collapsed
into the opaque `rest` payload.  A missing key is `none`. -/
structure AgentState where
  turn_number : Option Nat := none
  greeting_response : Option Str := none
  domain_followup_question : Option Str := none
  dataset_followup_question : Option Str := none
  sql_followup_question : Option Str := none
  question_type : Option Str := none
  next_agent : Option Str := none
  current_question : Option Str := none
  user_question : Option Str := none
  session_id : Option Str := none
  user_id : Option Str := none
  rest : Str := []
  deriving DecidableEq, Repr

/-- Python truthiness of an optional string: present and nonempty. -/
def truthy : Option Str → Bool
  | none => false
  | some s => ¬ s.isEmpty

/-- Events of the external workflow event sequence, as read by the relay
(chat.py lines 173-275).  Payloads the relay passes through opaquely are
plain strings; payloads read with `.get` keep their optionality. -/
inductive WorkflowEvent where
  | workflow_start
  | node_complete (node : Option Str) (statusMsg : Option Str)
  | narrative (content : Str)
  | sql_result (payload : Str)
  | chart (spec : Str)
  | followup_questions (questions : Str)
  | workflow_end (state : AgentState)
  | error (err : Option Str)
  deriving DecidableEq, Repr

/-- Frames emitted for the terminal `workflow_end` state, in the priority
order of the elif chain at chat.py lines 235-269. -/
def workflowEndFrames (st : AgentState) : List Frame :=
  if truthy st.greeting_response then
    streamFrames (st.greeting_response.getD [])
  else if truthy st.domain_followup_question then
    [Frame.clarification "domain".toList (st.domain_followup_question.getD [])]
  else if truthy st.dataset_followup_question then
    [Frame.clarification "dataset".toList (st.dataset_followup_question.getD [])]
  else if truthy st.sql_followup_question then
    [Frame.clarification "sql".toList (st.sql_followup_question.getD [])]
  else []

/-- Value assigned to `full_response` by the `workflow_end` branch, given
its value before the event. -/
def workflowEndResponse (st : AgentState) (fullResp : Str) : Str :=
  if truthy st.greeting_response then st.greeting_response.getD []
  else if truthy st.domain_followup_question then
    st.domain_followup_question.getD []
  else if truthy st.dataset_followup_question then
    st.dataset_followup_question.getD []
  else if truthy st.sql_followup_question then
    st.sql_followup_question.getD []
  else fullResp

/-- One iteration of the event loop of `stream_response_workflow`
(chat.py lines 166-275).  The accumulator carries `full_response` and
`final_state`; the result lists the frames written for the event. -/
def handleEvent : Str × AgentState → WorkflowEvent → (Str × AgentState) × List Frame
  | (fr, fs), WorkflowEvent.workflow_start =>
      ((fr, fs),
       [Frame.status "started".toList "Workflow started...".toList none])
  | (fr, fs), WorkflowEvent.node_complete node statusMsg =>
      ((fr, fs),
       [Frame.status "processing".toList
          (statusMsg.getD
            ("Completed ".toList ++ node.getD [] ++ "...".toList)) node])
  | (fr, fs), WorkflowEvent.narrative content =>
      if content = [] then ((fr, fs), [])
      else ((content, fs), streamFrames content)
  | (fr, fs), WorkflowEvent.sql_result payload =>
      ((fr, fs), [Frame.dataF "sql_result".toList payload])
  | (fr, fs), WorkflowEvent.chart spec =>
      ((fr, fs), [Frame.dataF "chart".toList spec])
  | (fr, fs), WorkflowEvent.followup_questions qs =>
      ((fr, fs), [Frame.dataF "followup_questions".toList qs])
  | (fr, _), WorkflowEvent.workflow_end st =>
      ((workflowEndResponse st fr, st), workflowEndFrames st)
  | (fr, fs), WorkflowEvent.error e =>
      ((fr, fs), [Frame.error (e.getD "Unknown error".toList)])

/-- The whole event loop: threads the accumulator through the events and
concatenates the frames in order. -/
def processEvents : List WorkflowEvent → Str × AgentState → (Str × AgentState) × List Frame
  | [], acc => (acc, [])
  | e :: es, acc =>
    let step := handleEvent acc e
    let tail := processEvents es step.1
    (tail.1, step.2 ++ tail.2)

/-- Pending write to the turns table (arguments of the `save_turn` call at
chat.py lines 301-308). -/
structure TurnWrite where
  session_id : Str
  turn_number : Nat
  user_question : Str
  agent_response : Str
  state_snapshot : AgentState
  deriving DecidableEq, Repr

/-- Pending upsert of the session row (arguments of the `save_session`
call at chat.py lines 310-315). -/
structure SessionWrite where
  session_id : Str
  user_id : Str
  state : AgentState
  title : Option Str
  deriving DecidableEq, Repr

/-- Model of `stream_response_workflow` (chat.py lines 137-325).  The
event sequence is given as the list of events the generator yields; a
`raised = some err` sequence raises the exception `err` after those
events, which the enclosing `except` turns into a single error frame.
The result is the ordered frame list, the returned `full_response`, and
the persistence calls issued (none when the sequence raised, since the
completion block is skipped).  Persistence success is modelled at the
store level; the pacing sleeps are timing only and are not modelled. -/
def stream_response_workflow (question session_id user_id : Str)
    (state : AgentState) (events : List WorkflowEvent)
    (raised : Option Str) :
    List Frame × Str × Option (TurnWrite × SessionWrite) :=
  let initFrames : List Frame :=
    [Frame.status "processing".toList
      "Processing your question...".toList none]
  let run := processEvents events ([], state)
  let fullResp := run.1.1
  let finalState := run.1.2
  match raised with
  | some err =>
      (initFrames ++ run.2 ++ [Frame.error err], fullResp, none)
  | none =>
      let turn_number := state.turn_number.getD 0 + 1
      (initFrames ++ run.2 ++
        [Frame.stream [] true,
         Frame.complete fullResp session_id turn_number
           finalState.question_type finalState.next_agent],
       fullResp,
       some
        (⟨session_id, turn_number, question, fullResp, finalState⟩,
         ⟨session_id, user_id,
          { finalState with turn_number := some turn_number },
          if turn_number = 1 then some (question.take 100) else none⟩))

/-- Clarification types carried by the clarification frames of a frame
list, in emission order. -/
def clarTypesOf (fs : List Frame) : List Str :=
  fs.filterMap (fun f =>
    match f with
    | Frame.clarification t _ => some t
    | _ => none)

theorem clarTypesOf_streamFrames (c : Str) :
    clarTypesOf (streamFrames c) = [] := by
  unfold clarTypesOf streamFrames
  induction splitWS c with
  | nil => rfl
  | cons w ws ih => simp only [List.map_cons, List.filterMap_cons]; exact ih

/-- Frames of the event loop are never the terminating empty-token
`done=true` stream frame and never a `complete` frame: those are emitted
only by the completion block after the loop. -/
theorem processEvents_no_terminal (events : List WorkflowEvent) :
    ∀ acc, ∀ f ∈ (processEvents events acc).2,
      (∀ t, f ≠ Frame.stream t true) ∧
      (∀ r s n qt na, f ≠ Frame.complete r s n qt na) := by
  have hstream : ∀ (c : Str), ∀ f ∈ streamFrames c,
      (∀ t, f ≠ Frame.stream t true) ∧
      (∀ r s n qt na, f ≠ Frame.complete r s n qt na) := by
    intro c f hf
    unfold streamFrames at hf
    rcases List.mem_map.mp hf with ⟨w, _, hw⟩
    subst hw
    exact ⟨fun t => by simp, fun r s n qt na => by simp⟩
  induction events with
  | nil => intro acc f hf; simp [processEvents] at hf
  | cons e es ih =>
    intro acc f hf
    unfold processEvents at hf
    simp only [List.mem_append] at hf
    rcases hf with hf | hf
    · cases e with
      | workflow_start =>
        simp [handleEvent] at hf
        subst hf
        exact ⟨fun t => by simp, fun r s n qt na => by simp⟩
      | node_complete node statusMsg =>
        simp [handleEvent] at hf
        subst hf
        exact ⟨fun t => by simp, fun r s n qt na => by simp⟩
      | narrative content =>
        by_cases hc : content = []
        · simp [handleEvent, hc] at hf
        · simp [handleEvent, hc] at hf
          exact hstream content f hf
      | sql_result payload =>
        simp [handleEvent] at hf
        subst hf
        exact ⟨fun t => by simp, fun r s n qt na => by simp⟩
      | chart spec =>
        simp [handleEvent] at hf
        subst hf
        exact ⟨fun t => by simp, fun r s n qt na => by simp⟩
      | followup_questions qs =>
        simp [handleEvent] at hf
        subst hf
        exact ⟨fun t => by simp, fun r s n qt na => by simp⟩
      | workflow_end st =>
        simp only [handleEvent] at hf
        unfold workflowEndFrames at hf
        by_cases h1 : truthy st.greeting_response
        · simp [h1] at hf
          exact hstream _ f hf
        · by_cases h2 : truthy st.domain_followup_question
          · simp [h1, h2] at hf
            subst hf
            exact ⟨fun t => by simp, fun r s n qt na => by simp⟩
          · by_cases h3 : truthy st.dataset_followup_question
            · simp [h1, h2, h3] at hf
              subst hf
              exact ⟨fun t => by simp, fun r s n qt na => by simp⟩
            · by_cases h4 : truthy st.sql_followup_question
              · simp [h1, h2, h3, h4] at hf
                subst hf
                exact ⟨fun t => by simp, fun r s n qt na => by simp⟩
              · simp [h1, h2, h3, h4] at hf
      | error e =>
        simp [handleEvent] at hf
        subst hf
        exact ⟨fun t => by simp, fun r s n qt na => by simp⟩
    · exact ih _ f hf

/-- An error event anywhere in the sequence contributes its error frame
to the event-loop output, whatever the accumulator. -/
theorem processEvents_error_mem (events : List WorkflowEvent) (e : Option Str) :
    ∀ acc, WorkflowEvent.error e ∈ events →
      Frame.error (e.getD "Unknown error".toList) ∈ (processEvents events acc).2 := by
  induction events with
  | nil => intro acc h; simp at h
  | cons ev es ih =>
    intro acc h
    unfold processEvents
    simp only [List.mem_append]
    rcases List.mem_cons.mp h with h | h
    · subst h
      left
      simp [handleEvent]
    · right
      exact ih _ h

/-- C1 (amended): for every narrative or greeting content string, the
relay emits one `stream` frame per whitespace-delimited token, each
token text being the token plus one trailing space; concatenating the
token fields yields the token list rejoined with one space after every
token, so the concatenation reproduces the content up to whitespace
normalisation (splitting it returns exactly the original token list),
but not the original string itself in general. -/
theorem C1_stream_tokens_amended (content : Str) :
    streamFrames content
        = (splitWS content).map (fun w => Frame.stream (w ++ [' ']) false)
      ∧ tokensOf (streamFrames content) = joinWords (splitWS content)
      ∧ splitWS (tokensOf (streamFrames content)) = splitWS content := by
  refine ⟨rfl, tokensOf_streamFrames content, ?_⟩
  rw [tokensOf_streamFrames content]
  exact splitWS_joinWords _ (splitWS_words_clean content)

/-- C1 counterexample: for the narrative content "hi" the concatenation
of the streamed token fields is "hi " with a trailing space, which is
not the original content string. -/
theorem C1_counterexample :
    tokensOf (streamFrames ('h' :: 'i' :: []))
        = ('h' :: 'i' :: ' ' :: [])
      ∧ ('h' :: 'i' :: ' ' :: []) ≠ ('h' :: 'i' :: []) := by
  constructor
  · rfl
  · decide

/-- C2 (amended): on the terminal `workflow_end` event the relay
inspects the final state in strict priority order greeting response,
then domain, dataset, sql clarification, only the highest-priority
truthy (present and nonempty) field taking effect, and a selected
clarification field yields exactly one `clarification` frame of the
corresponding type; but the `complete` frame for the turn is still
emitted afterwards, in addition to (not instead of) the clarification
frame. -/
theorem processEvents_nil (acc : Str × AgentState) :
    processEvents [] acc = (acc, []) := rfl

theorem clarTypesOf_cons_status (s m : Str) (n : Option Str) (fs : List Frame) :
    clarTypesOf (Frame.status s m n :: fs) = clarTypesOf fs := by
  simp [clarTypesOf]

theorem clarTypesOf_append (fs gs : List Frame) :
    clarTypesOf (fs ++ gs) = clarTypesOf fs ++ clarTypesOf gs := by
  simp [clarTypesOf]

theorem clarTypesOf_terminal (r s : Str) (n : Nat) (qt na : Option Str) :
    clarTypesOf [Frame.stream [] true, Frame.complete r s n qt na] = [] := by
  simp [clarTypesOf]

theorem clarTypesOf_workflowEndFrames (st : AgentState) :
    clarTypesOf (workflowEndFrames st)
      = (if truthy st.greeting_response then []
         else if truthy st.domain_followup_question then ["domain".toList]
         else if truthy st.dataset_followup_question then ["dataset".toList]
         else if truthy st.sql_followup_question then ["sql".toList]
         else []) := by
  unfold workflowEndFrames
  by_cases h1 : truthy st.greeting_response
  · simp only [h1, if_true]
    exact clarTypesOf_streamFrames _
  · by_cases h2 : truthy st.domain_followup_question
    · simp [h1, h2, clarTypesOf]
    · by_cases h3 : truthy st.dataset_followup_question
      · simp [h1, h2, h3, clarTypesOf]
      · by_cases h4 : truthy st.sql_followup_question
        · simp [h1, h2, h3, h4, clarTypesOf]
        · simp [h1, h2, h3, h4, clarTypesOf]

/-- Closed form of a run whose event sequence is a single terminal
`workflow_end` event. -/
theorem run_single_end (q sid uid : Str) (st0 endSt : AgentState) :
    (stream_response_workflow q sid uid st0
        [WorkflowEvent.workflow_end endSt] none).1
      = Frame.status "processing".toList
          "Processing your question...".toList none
        :: (workflowEndFrames endSt ++
            [Frame.stream [] true,
             Frame.complete (workflowEndResponse endSt []) sid
               (st0.turn_number.getD 0 + 1)
               endSt.question_type endSt.next_agent]) := by
  unfold stream_response_workflow
  simp [processEvents, handleEvent]

theorem C2_workflow_end_amended (q sid uid : Str) (st0 endSt : AgentState) :
    clarTypesOf ((stream_response_workflow q sid uid st0
        [WorkflowEvent.workflow_end endSt] none).1)
      = (if truthy endSt.greeting_response then []
         else if truthy endSt.domain_followup_question then ["domain".toList]
         else if truthy endSt.dataset_followup_question then ["dataset".toList]
         else if truthy endSt.sql_followup_question then ["sql".toList]
         else [])
    ∧ Frame.complete (workflowEndResponse endSt []) sid
        (st0.turn_number.getD 0 + 1) endSt.question_type endSt.next_agent
      ∈ (stream_response_workflow q sid uid st0
          [WorkflowEvent.workflow_end endSt] none).1 := by
  constructor
  · rw [run_single_end, clarTypesOf_cons_status, clarTypesOf_append,
      clarTypesOf_terminal, List.append_nil, clarTypesOf_workflowEndFrames]
  · rw [run_single_end]
    simp

/-- C2 counterexample: a `workflow_end` state whose only special field is
a domain clarification produces the domain `clarification` frame and
nevertheless the `complete` frame for the same turn, refuting the
claimed instead-of relation. -/
theorem C2_counterexample :
    Frame.clarification "domain".toList ('d' :: [])
        ∈ (stream_response_workflow [] [] [] {}
            [WorkflowEvent.workflow_end
              { domain_followup_question := some ('d' :: []) }] none).1
      ∧ Frame.complete ('d' :: []) [] 1 none none
        ∈ (stream_response_workflow [] [] [] {}
            [WorkflowEvent.workflow_end
              { domain_followup_question := some ('d' :: []) }] none).1 := by
  constructor
  · decide
  · decide

/-- C3 (amended): an error event in the sequence yields an `error` frame
but does not abort event consumption or suppress the normal-completion
frames: the empty-token `done=true` stream frame and the `complete`
frame are emitted whenever the event generator finishes without raising,
even when the sequence contained error events; only a raised exception
suppresses them, and then a single `error` frame is emitted instead; in
both cases the relay returns control to the receive loop and the
connection stays open. -/
theorem C3_error_event_amended (q sid uid : Str) (st0 : AgentState)
    (events : List WorkflowEvent) (e : Option Str) (err : Str)
    (h : WorkflowEvent.error e ∈ events) :
    Frame.error (e.getD "Unknown error".toList)
        ∈ (stream_response_workflow q sid uid st0 events none).1
      ∧ Frame.stream [] true
        ∈ (stream_response_workflow q sid uid st0 events none).1
      ∧ (∃ r n qt na, Frame.complete r sid n qt na
          ∈ (stream_response_workflow q sid uid st0 events none).1)
      ∧ (∀ r s n qt na, Frame.complete r s n qt na
          ∉ (stream_response_workflow q sid uid st0 events (some err)).1)
      ∧ Frame.stream [] true
          ∉ (stream_response_workflow q sid uid st0 events (some err)).1 := by
  refine ⟨?_, ?_, ?_, ?_, ?_⟩
  · unfold stream_response_workflow
    simp only [List.mem_append]
    left; right
    exact processEvents_error_mem events e _ h
  · unfold stream_response_workflow
    simp
  · refine ⟨(processEvents events ([], st0)).1.1, st0.turn_number.getD 0 + 1,
      (processEvents events ([], st0)).1.2.question_type,
      (processEvents events ([], st0)).1.2.next_agent, ?_⟩
    unfold stream_response_workflow
    simp
  · intro r s n qt na hmem
    unfold stream_response_workflow at hmem
    simp only [List.mem_append, List.mem_singleton, List.mem_cons] at hmem
    rcases hmem with (hmem | hmem) | hmem
    · simp at hmem
    · exact (processEvents_no_terminal events _ _ hmem).2 r s n qt na rfl
    · simp at hmem
  · intro hmem
    unfold stream_response_workflow at hmem
    simp only [List.mem_append, List.mem_singleton, List.mem_cons] at hmem
    rcases hmem with (hmem | hmem) | hmem
    · simp at hmem
    · exact (processEvents_no_terminal events _ _ hmem).1 [] rfl
    · simp at hmem

/-- C3 witness: concrete run of a one-event sequence consisting of a
single error event. -/
theorem C3_error_event_witness :
    Frame.error ('b' :: [])
      ∈ (stream_response_workflow [] [] [] {}
          [WorkflowEvent.error (some ('b' :: []))] none).1 := by
  have h := C3_error_event_amended [] [] [] {}
    [WorkflowEvent.error (some ('b' :: []))] (some ('b' :: [])) ('x' :: [])
    (by simp)
  exact h.1

/-- C3 counterexample: a sequence consisting of exactly one error event
still ends with the empty-token `done=true` stream frame and the
`complete` frame, refuting the claim that they are only emitted when the
sequence completes with no error event. -/
theorem C3_counterexample :
    Frame.stream [] true
        ∈ (stream_response_workflow [] [] [] {}
            [WorkflowEvent.error (some ('b' :: []))] none).1
      ∧ Frame.complete [] [] 1 none none
        ∈ (stream_response_workflow [] [] [] {}
            [WorkflowEvent.error (some ('b' :: []))] none).1 := by
  constructor
  · decide
  · decide

/-- One row of the sessions table, keyed externally by `session_id`
(databricks.py lines 126-134). -/
structure SessionRow where
  user_id : Str
  title : Str
  state : AgentState
  created_at : Nat
  updated_at : Nat
  deriving DecidableEq, Repr

/-- One row of the turns table (databricks.py lines 139-148). -/
structure TurnRow where
  session_id : Str
  turn_number : Nat
  user_question : Str
  agent_response : Str
  state_snapshot : AgentState
  created_at : Nat
  deriving DecidableEq, Repr

/-- The two Delta tables.  The sessions table is a map keyed by the
globally unique `session_id`; the turns table is an append-only row
list. -/
structure Store where
  sessions : Str → Option SessionRow
  turns : List TurnRow

/-- Model of `DatabricksStorage.save_session` (databricks.py lines
164-190): a MERGE on `session_id`.  The matched branch updates `state`,
`updated_at` and unconditionally `title` to the interpolated value
`title or ""`; the unmatched branch inserts a fresh row with
`created_at = updated_at = now`. -/
def save_session (store : Store) (session_id user_id : Str)
    (state : AgentState) (title : Option Str) (now : Nat) : Store :=
  let title_val := title.getD []
  match store.sessions session_id with
  | some row =>
      let row' : SessionRow :=
        { row with
          state := state,
          title := title_val,
          updated_at := now }
      { store with sessions := fun k =>
          if k = session_id then some row' else store.sessions k }
  | none =>
      let row' : SessionRow :=
        { user_id := user_id,
          title := title_val,
          state := state,
          created_at := now,
          updated_at := now }
      { store with sessions := fun k =>
          if k = session_id then some row' else store.sessions k }

/-- Model of `DatabricksStorage.get_session` (databricks.py lines
192-212). -/
def get_session (store : Store) (session_id : Str) : Option SessionRow :=
  store.sessions session_id

/-- Model of `DatabricksStorage.save_turn` (databricks.py lines 259-281):
a plain INSERT appending one turn row. -/
def save_turn (store : Store) (session_id : Str) (turn_number : Nat)
    (user_question agent_response : Str) (state_snapshot : AgentState)
    (now : Nat) : Store :=
  let row : TurnRow :=
    { session_id := session_id,
      turn_number := turn_number,
      user_question := user_question,
      agent_response := agent_response,
      state_snapshot := state_snapshot,
      created_at := now }
  { store with turns := store.turns ++ [row] }

/-- Model of `DatabricksStorage.delete_session` (databricks.py lines
241-253): DELETE the turns of the id first, then the session row, and
return the constant `True`. -/
def delete_session (store : Store) (session_id : Str) : Store × Bool :=
  let keptTurns :=
    store.turns.filter (fun t => if t.session_id = session_id then false else true)
  let afterTurns := { store with turns := keptTurns }
  let afterSession :=
    { afterTurns with sessions := fun k =>
        if k = session_id then none else afterTurns.sessions k }
  (afterSession, true)

/-- Whether a session row with the id exists. -/
def sessionExists (store : Store) (session_id : Str) : Bool :=
  (store.sessions session_id).isSome

/-- The stored turn numbers of a session, in table order. -/
def turnNumbers (store : Store) (session_id : Str) : List Nat :=
  (store.turns.filter
    (fun t => if t.session_id = session_id then true else false)).map
    (fun t => t.turn_number)

/-- C4: storing a session with no title argument overwrites a previously
stored title with the empty string; evaluated at a store holding a row
with title "T", a matched `save_session` with `title = none` leaves the
title empty instead of unchanged. -/
theorem C4_title_overwritten :
    ((save_session
        ⟨fun k => if k = ('s' :: []) then
            some ⟨('u' :: []), ('T' :: []), {}, 0, 0⟩ else none, []⟩
        ('s' :: []) ('u' :: []) {} none 5).sessions ('s' :: [])).map
        SessionRow.title = some []
    ∧ (((⟨fun k => if k = ('s' :: []) then
            some ⟨('u' :: []), ('T' :: []), {}, 0, 0⟩ else none, []⟩ :
          Store).sessions ('s' :: [])).map
        SessionRow.title = some ('T' :: [])) := by
  constructor
  · rfl
  · rfl

/-- C6: `delete_session` returns `True` even when no session with the id
exists, diverging from the documented contract of returning whether a
session existed. -/
theorem C6_delete_returns_true_always :
    (delete_session { sessions := fun _ => none, turns := [] }
        ('x' :: [])).2 = true
    ∧ sessionExists { sessions := fun _ => none, turns := [] }
        ('x' :: []) = false := by
  constructor
  · rfl
  · rfl

/-- Turn counter the relay reads from the stored session state
(`state.get("turn_number", 0)` at chat.py line 285, with the state
loaded at lines 419-425; both a missing session and a missing key give
0). -/
def sessionTN (store : Store) (session_id : Str) : Nat :=
  match store.sessions session_id with
  | some row => row.state.turn_number.getD 0
  | none => 0

theorem save_session_turns (store : Store) (s u : Str) (st : AgentState)
    (t : Option Str) (now : Nat) :
    (save_session store s u st t now).turns = store.turns := by
  cases hs : store.sessions s <;> simp [save_session, hs]

theorem sessionTN_save_session (store : Store) (s u : Str) (st : AgentState)
    (t : Option Str) (now : Nat) :
    sessionTN (save_session store s u st t now) s = st.turn_number.getD 0 := by
  cases hs : store.sessions s <;> simp [sessionTN, save_session, hs]

theorem turnNumbers_save_session (store : Store) (sid s u : Str)
    (st : AgentState) (t : Option Str) (now : Nat) :
    turnNumbers (save_session store s u st t now) sid = turnNumbers store sid := by
  unfold turnNumbers
  rw [save_session_turns]

theorem turnNumbers_save_turn (store : Store) (s : Str) (n : Nat)
    (q r : Str) (snap : AgentState) (now : Nat) :
    turnNumbers (save_turn store s n q r snap now) s
      = turnNumbers store s ++ [n] := by
  simp [turnNumbers, save_turn, List.filter_append]

theorem sessionTN_save_turn (store : Store) (sid s : Str) (n : Nat)
    (q r : Str) (snap : AgentState) (now : Nat) :
    sessionTN (save_turn store s n q r snap now) sid = sessionTN store sid := by
  simp [sessionTN, save_turn]

/-- Model of one full message cycle of the relay for a valid question:
load prior state for the session id (missing session gives empty state,
chat.py lines 416-425), merge the question fields (lines 428-431), drive
`stream_response_workflow`, and issue its persistence calls in source
order, turn first then session (lines 299-315), both succeeding. -/
def relayTurn (store : Store) (session_id user_id question : Str)
    (events : List WorkflowEvent) (raised : Option Str) (now : Nat) :
    Store × List Frame :=
  let state0 :=
    match store.sessions session_id with
    | some row => row.state
    | none => {}
  let state1 :=
    { state0 with
      current_question := some question,
      user_question := some question,
      session_id := some session_id,
      user_id := some user_id }
  let run := stream_response_workflow question session_id user_id state1
    events raised
  match run.2.2 with
  | none => (store, run.1)
  | some (tw, sw) =>
      let store1 := save_turn store tw.session_id tw.turn_number
        tw.user_question tw.agent_response tw.state_snapshot now
      let store2 := save_session store1 sw.session_id sw.user_id
        sw.state sw.title now
      (store2, run.1)

/-- Sequential processing of a list of messages (question and event
sequence) for one session: each turn is fully processed and persisted
before the next one starts. -/
def relayTurns (store : Store) (session_id user_id : Str)
    (inputs : List (Str × List WorkflowEvent)) (now : Nat) : Store :=
  match inputs with
  | [] => store
  | qe :: rest =>
      relayTurns (relayTurn store session_id user_id qe.1 qe.2 none now).1
        session_id user_id rest now

theorem relayTurn_step (store : Store) (sid uid q : Str)
    (events : List WorkflowEvent) (now : Nat) :
    sessionTN (relayTurn store sid uid q events none now).1 sid
        = sessionTN store sid + 1
    ∧ turnNumbers (relayTurn store sid uid q events none now).1 sid
        = turnNumbers store sid ++ [sessionTN store sid + 1] := by
  cases hs : store.sessions sid with
  | none =>
      unfold relayTurn stream_response_workflow
      rw [hs]
      constructor
      · rw [sessionTN_save_session]
        simp [sessionTN, hs]
      · rw [turnNumbers_save_session, turnNumbers_save_turn]
        simp [sessionTN, hs]
  | some row =>
      unfold relayTurn stream_response_workflow
      rw [hs]
      constructor
      · rw [sessionTN_save_session]
        simp [sessionTN, hs]
      · rw [turnNumbers_save_session, turnNumbers_save_turn]
        simp [sessionTN, hs]

theorem relayTurns_inv (sid uid : Str) (now : Nat) :
    ∀ (inputs : List (Str × List WorkflowEvent)) (store : Store),
      turnNumbers (relayTurns store sid uid inputs now) sid
        = turnNumbers store sid
          ++ List.range' (sessionTN store sid + 1) inputs.length := by
  intro inputs
  induction inputs with
  | nil => intro store; simp [relayTurns]
  | cons qe rest ih =>
    intro store
    unfold relayTurns
    rw [ih]
    rcases relayTurn_step store sid uid qe.1 qe.2 now with ⟨h1, h2⟩
    rw [h1, h2, List.length_cons, List.range'_succ, List.append_assoc]
    rfl

/-- C7: for every session whose turns are processed sequentially by the
relay with all persistence calls succeeding, starting from a store with
no session row and no turn rows for the id, the stored turn numbers
after N messages are exactly the list 1..N, with no gaps or repeats;
each completed turn carries the prior turn count plus one, starting at 1
for a fresh session. -/
theorem C7_turn_numbers_sequential (store0 : Store) (sid uid : Str)
    (inputs : List (Str × List WorkflowEvent)) (now : Nat)
    (hsess : store0.sessions sid = none)
    (hturns : turnNumbers store0 sid = []) :
    turnNumbers (relayTurns store0 sid uid inputs now) sid
      = List.range' 1 inputs.length := by
  rw [relayTurns_inv]
  simp [hturns, sessionTN, hsess]

/-- C7 witness: two sequential turns on a fresh store yield stored turn
numbers [1, 2]. -/
theorem C7_turn_numbers_witness :
    (⟨fun _ => none, []⟩ : Store).sessions ('a' :: []) = none
    ∧ turnNumbers (⟨fun _ => none, []⟩ : Store) ('a' :: []) = []
    ∧ turnNumbers
        (relayTurns (⟨fun _ => none, []⟩ : Store) ('a' :: []) ('u' :: [])
          [(('q' :: []), []), (('r' :: []), [])] 0) ('a' :: [])
      = List.range' 1 2 := by
  refine ⟨rfl, rfl, ?_⟩
  exact C7_turn_numbers_sequential ⟨fun _ => none, []⟩ ('a' :: []) ('u' :: [])
    [(('q' :: []), []), (('r' :: []), [])] 0 rfl rfl

/-- Model of `ConnectionManager.broadcast` (chat.py lines 41-44): iterate
the registered channels in registration order and write the frame to
each.  A channel is modelled by its id and whether writing to it raises;
the loop body has no exception handling, so a raising write aborts the
iteration and the exception propagates.  The result is the list of ids
the frame was delivered to and whether an exception propagated. -/
def broadcast : List (Str × Bool) → List Str × Bool
  | [] => ([], false)
  | (cid, fails) :: rest =>
    if fails then ([], true)
    else
      let tail := broadcast rest
      (cid :: tail.1, tail.2)

/-- C8 (amended): `broadcast` writes to the registered channels in
registration order only up to the first failing channel: every channel
before it receives the frame, the failing channel aborts the loop with
the exception propagating, and no later channel receives the frame, so
delivery is not best-effort per channel. -/
theorem C8_broadcast_amended (pre : List (Str × Bool)) (c : Str × Bool)
    (post : List (Str × Bool))
    (hpre : ∀ x ∈ pre, x.2 = false) (hc : c.2 = true) :
    broadcast (pre ++ c :: post) = (pre.map Prod.fst, true) := by
  induction pre with
  | nil =>
    rcases c with ⟨cid, fails⟩
    simp only at hc
    subst hc
    simp [broadcast]
  | cons x xs ih =>
    have hx : x.2 = false := hpre x (by simp)
    rcases x with ⟨xid, xf⟩
    simp only at hx
    subst hx
    rw [List.cons_append]
    unfold broadcast
    rw [ih (fun y hy => hpre y (by simp [hy]))]
    simp

/-- C8 witness: three channels, the middle one failing, deliver only to
the channel registered before the failing one. -/
theorem C8_broadcast_witness :
    broadcast [(('a' :: []), false), (('b' :: []), true), (('c' :: []), false)]
      = ([('a' :: [])], true) := by
  have h := C8_broadcast_amended [(('a' :: []), false)] (('b' :: []), true)
    [(('c' :: []), false)] (by simp) rfl
  simpa using h

/-- C8 counterexample: the channel of id b is registered and its write
would succeed, yet after the failing write to the channel of id a the
frame is delivered to no channel at all, so one failure does prevent
delivery to the other registered channels. -/
theorem C8_counterexample :
    broadcast [(('a' :: []), true), (('b' :: []), false)] = ([], true)
    ∧ ('b' :: []) ∉ (broadcast [(('a' :: []), true), (('b' :: []), false)]).1 := by
  constructor
  · rfl
  · simp [broadcast]

/-- Script of one submission attempt of `_execute_sql` (databricks.py
lines 70-119): the submission POST either raises a network ClientError
(`none`) or returns a triple of the HTTP 200 flag, the statement state
and the rows payload; each subsequent GET poll either raises (`none`)
or returns a new state and payload. -/
structure AttemptScript where
  submit : Option (Bool × Str × Str)
  polls : Nat → Option (Str × Str)

/-- Outcome of one attempt body: a ClientError caught by the retry
handler, a parsed row payload, or a non-network exception (HTTP error,
FAILED state, unexpected state), which the `except aiohttp.ClientError`
clause does not catch. -/
inductive AttemptResult where
  | clientError
  | success (rows : Str)
  | failure (msg : Str)
  deriving DecidableEq, Repr

/-- The polling loop (databricks.py lines 90-99): while the state is
PENDING or RUNNING and the poll budget is not exhausted, issue the next
GET; a ClientError raised by a poll aborts the whole attempt body
(`none`). -/
def pollLoop (polls : Nat → Option (Str × Str)) :
    Nat → Nat → Str × Str → Option (Str × Str)
  | fuel, i, (st, rows) =>
    if st = "PENDING".toList ∨ st = "RUNNING".toList then
      match fuel with
      | 0 => some (st, rows)
      | fuel' + 1 =>
        match polls i with
        | none => none
        | some next => pollLoop polls fuel' (i + 1) next
    else some (st, rows)

/-- One attempt body of `_execute_sql` (databricks.py lines 71-112):
submit, then poll until terminal, then classify SUCCEEDED as rows,
FAILED and non-200 and unexpected states as raised exceptions. -/
def runAttempt (s : AttemptScript) (maxPolls : Nat) : AttemptResult :=
  match s.submit with
  | none => AttemptResult.clientError
  | some (httpOk, st, rows) =>
    if httpOk = false then AttemptResult.failure "SQL API error".toList
    else
      match pollLoop s.polls maxPolls 0 (st, rows) with
      | none => AttemptResult.clientError
      | some final =>
        if final.1 = "SUCCEEDED".toList then AttemptResult.success final.2
        else if final.1 = "FAILED".toList then
          AttemptResult.failure "SQL execution failed".toList
        else AttemptResult.failure "Unexpected SQL state".toList

/-- What `_execute_sql` lets escape to its caller. -/
inductive SqlOutcome where
  | rows (payload : Str)
  | raisedClientError
  | raisedFailure (msg : Str)
  deriving DecidableEq, Repr

/-- The retry loop of `_execute_sql` (databricks.py lines 67-119):
`for attempt in range(3)` with the whole submit-and-poll body inside
`try`, retrying only on `aiohttp.ClientError` and sleeping
`2.0 * 2 ** attempt` seconds before each retry.  `fuel` counts the
remaining retries; the second component collects the backoff sleeps in
whole seconds. -/
def execute_sql_go (scripts : Nat → AttemptScript) (maxPolls : Nat) :
    Nat → Nat → SqlOutcome × List Nat
  | 0, attempt =>
    match runAttempt (scripts attempt) maxPolls with
    | AttemptResult.success rows => (SqlOutcome.rows rows, [])
    | AttemptResult.failure m => (SqlOutcome.raisedFailure m, [])
    | AttemptResult.clientError => (SqlOutcome.raisedClientError, [])
  | fuel + 1, attempt =>
    match runAttempt (scripts attempt) maxPolls with
    | AttemptResult.success rows => (SqlOutcome.rows rows, [])
    | AttemptResult.failure m => (SqlOutcome.raisedFailure m, [])
    | AttemptResult.clientError =>
      let rest := execute_sql_go scripts maxPolls fuel (attempt + 1)
      (rest.1, (2 * 2 ^ attempt) :: rest.2)

/-- Model of `_execute_sql` with its defaults: `max_retries = 3` (so two
remaining retries at the start) and `max_polls = timeout // 2`. -/
def execute_sql (scripts : Nat → AttemptScript) (timeout : Nat) :
    SqlOutcome × List Nat :=
  execute_sql_go scripts (timeout / 2) 2 0

/-- C5 (amended): a network ClientError anywhere in the attempt body is
retried, whether it occurred at submission or during polling, because
the polling loop sits inside the same `try`: a polling ClientError makes
the whole attempt a clientError result, and any clientError attempt is
retried with exponential backoff sleeps of 2·2^attempt seconds up to the
cap of 3 attempts, the whole statement being resubmitted; only the
ClientError of the third attempt propagates, while backend-reported
failures and unexpected states propagate immediately without retry. -/
theorem C5_retry_behaviour_amended (scripts : Nat → AttemptScript)
    (timeout : Nat) :
    (∀ s : AttemptScript, ∀ st rows : Str,
        s.submit = some (true, st, rows) →
        (st = "PENDING".toList ∨ st = "RUNNING".toList) →
        s.polls 0 = none → 0 < timeout / 2 →
        runAttempt s (timeout / 2) = AttemptResult.clientError)
    ∧ (∀ rows, runAttempt (scripts 0) (timeout / 2)
          = AttemptResult.success rows →
        execute_sql scripts timeout = (SqlOutcome.rows rows, []))
    ∧ (∀ m, runAttempt (scripts 0) (timeout / 2) = AttemptResult.failure m →
        execute_sql scripts timeout = (SqlOutcome.raisedFailure m, []))
    ∧ (∀ rows, runAttempt (scripts 0) (timeout / 2)
          = AttemptResult.clientError →
        runAttempt (scripts 1) (timeout / 2) = AttemptResult.success rows →
        execute_sql scripts timeout = (SqlOutcome.rows rows, [2]))
    ∧ (runAttempt (scripts 0) (timeout / 2) = AttemptResult.clientError →
        runAttempt (scripts 1) (timeout / 2) = AttemptResult.clientError →
        runAttempt (scripts 2) (timeout / 2) = AttemptResult.clientError →
        execute_sql scripts timeout = (SqlOutcome.raisedClientError, [2, 4])) := by
  refine ⟨?_, ?_, ?_, ?_, ?_⟩
  · intro s st rows hsub hpend hpoll hfuel
    obtain ⟨k, hk⟩ : ∃ k, timeout / 2 = k + 1 :=
      ⟨timeout / 2 - 1, by omega⟩
    unfold runAttempt
    rw [hsub, hk]
    unfold pollLoop
    simp only []
    rw [if_pos hpend]
    simp [hpoll]
  · intro rows h0
    unfold execute_sql
    unfold execute_sql_go
    rw [h0]
  · intro m h0
    unfold execute_sql
    unfold execute_sql_go
    rw [h0]
  · intro rows h0 h1
    unfold execute_sql
    unfold execute_sql_go
    rw [h0]
    simp only []
    unfold execute_sql_go
    rw [h1]
    norm_num
  · intro h0 h1 h2
    unfold execute_sql
    unfold execute_sql_go
    rw [h0]
    simp only []
    unfold execute_sql_go
    rw [h1]
    simp only []
    unfold execute_sql_go
    rw [h2]
    norm_num

/-- C5 witness: submission succeeds with state RUNNING, the first poll
raises a ClientError, and the retried second attempt succeeds: the call
returns the rows of the second attempt after one backoff sleep of 2
seconds. -/
theorem C5_retry_behaviour_witness :
    execute_sql
        (fun n =>
          if n = 0 then
            ⟨some (true, "RUNNING".toList, []), fun _ => none⟩
          else
            ⟨some (true, "SUCCEEDED".toList, ('o' :: 'k' :: [])),
             fun _ => none⟩)
        300
      = (SqlOutcome.rows ('o' :: 'k' :: []), [2]) := by
  exact (C5_retry_behaviour_amended
      (fun n =>
        if n = 0 then
          ⟨some (true, "RUNNING".toList, []), fun _ => none⟩
        else
          ⟨some (true, "SUCCEEDED".toList, ('o' :: 'k' :: [])),
           fun _ => none⟩)
      300).2.2.2.1 ('o' :: 'k' :: []) (by decide) (by decide)

/-- C5 counterexample: with a submission that succeeds, a first poll
that raises a network error, and a second attempt that succeeds, the
call is retried (one backoff sleep happened) and returns rows, instead
of surfacing the polling failure as an execution failure without
retry. -/
theorem C5_counterexample :
    execute_sql
        (fun n =>
          if n = 0 then
            ⟨some (true, "RUNNING".toList, []), fun _ => none⟩
          else
            ⟨some (true, "SUCCEEDED".toList, ('k' :: [])),
             fun _ => none⟩)
        300
      = (SqlOutcome.rows ('k' :: []), [2]) := by
  decide

/-- Parsed inbound JSON frame: the fields both websocket endpoints read
with `data.get` (chat.py lines 393-403 and 500-509).  A key missing from
the JSON object is `none`. -/
structure Inbound where
  type : Option Str := none
  session_id : Option Str := none
  user_id : Option Str := none
  user_email : Option Str := none
  question : Option Str := none
  deriving DecidableEq, Repr

/-- Action of one iteration of a websocket receive loop: either write
the listed frames and continue the loop (the connection stays open), or
start processing a turn with the resolved identifiers and question. -/
inductive ChatAction where
  | send (frames : List Frame)
  | runTurn (session_id user_id question : Str) (user_email : Option Str)
  deriving DecidableEq, Repr

/-- One iteration of the receive loop of the `/chat` endpoint
(chat.py lines 391-447): the frame type defaults to message, ping gets
pong, a message with an empty stripped question gets the empty-question
error frame, a valid message resolves the session id (a falsy client
value is replaced by a freshly generated id) and starts the turn, and
any other type falls through the two if statements and is ignored. -/
def websocket_chat_step (data : Inbound) (freshId : Str) : ChatAction :=
  let msg_type := data.type.getD "message".toList
  if msg_type = "ping".toList then ChatAction.send [Frame.pong]
  else if msg_type = "message".toList then
    let session_id :=
      if truthy data.session_id then data.session_id.getD [] else freshId
    let user_id := data.user_id.getD "anonymous".toList
    let question := strip (data.question.getD [])
    if question = [] then
      ChatAction.send [Frame.error "Question cannot be empty".toList]
    else ChatAction.runTurn session_id user_id question data.user_email
  else ChatAction.send []

/-- One iteration of the receive loop of the `/chat/{session_id}`
endpoint (chat.py lines 498-536): same as `/chat` except the session id
is fixed by the path and the user id falls back to the loaded session
state before the anonymous default. -/
def websocket_chat_session_step (data : Inbound) (session_id : Str)
    (state : AgentState) : ChatAction :=
  let msg_type := data.type.getD "message".toList
  if msg_type = "ping".toList then ChatAction.send [Frame.pong]
  else if msg_type = "message".toList then
    let user_id := data.user_id.getD (state.user_id.getD "anonymous".toList)
    let question := strip (data.question.getD [])
    if question = [] then
      ChatAction.send [Frame.error "Question cannot be empty".toList]
    else ChatAction.runTurn session_id user_id question data.user_email
  else ChatAction.send []

/-- C9 (amended): an inbound frame whose type is neither ping nor
message is silently ignored by both endpoints: no frame at all is
written (in particular no error frame), no state changes, and the
receive loop continues with the connection open. -/
theorem C9_unknown_type_amended (data : Inbound) (freshId sid : Str)
    (state : AgentState) (t : Str)
    (ht : data.type = some t) (h1 : t ≠ "ping".toList)
    (h2 : t ≠ "message".toList) :
    websocket_chat_step data freshId = ChatAction.send []
    ∧ websocket_chat_session_step data sid state = ChatAction.send [] := by
  constructor
  · unfold websocket_chat_step
    rw [ht]
    simp only [Option.getD_some]
    rw [if_neg h1, if_neg h2]
  · unfold websocket_chat_session_step
    rw [ht]
    simp only [Option.getD_some]
    rw [if_neg h1, if_neg h2]

/-- C9 witness: a frame of type foo is ignored by the `/chat`
endpoint. -/
theorem C9_unknown_type_witness :
    websocket_chat_step { type := some ('f' :: 'o' :: 'o' :: []) } []
      = ChatAction.send [] := by
  exact (C9_unknown_type_amended { type := some ('f' :: 'o' :: 'o' :: []) }
    [] [] {} ('f' :: 'o' :: 'o' :: []) rfl (by decide) (by decide)).1

/-- C9 counterexample: a frame of type foo produces no outbound frame at
all on either endpoint, hence no error frame, refuting the claim that a
malformed inbound frame is reported to the client as an error frame. -/
theorem C9_counterexample :
    websocket_chat_step { type := some ('f' :: 'o' :: 'o' :: []) } []
        = ChatAction.send []
    ∧ websocket_chat_session_step { type := some ('f' :: 'o' :: 'o' :: []) }
        ('s' :: []) {} = ChatAction.send [] := by
  constructor
  · rfl
  · rfl

theorem strip_of_all_space (q : Str) (h : ∀ c ∈ q, isSpace c) :
    strip q = [] := by
  have h1 : q.dropWhile isSpace = [] := by
    induction q with
    | nil => rfl
    | cons c cs ih =>
      have hc : isSpace c := h c (by simp)
      simp only [List.dropWhile_cons, hc, if_true]
      exact ih (fun d hd => h d (by simp [hd]))
  simp [strip, h1]

/-- C10: a frame with no type field defaults to type message on both
endpoints and is handled as a message frame: an untyped frame whose
question strips to empty (missing, empty or whitespace-only, the last
case by the final conjunct) yields the empty-question error frame, and
an untyped frame with a nonempty stripped question starts a normal turn
with the resolved identifiers. -/
theorem C10_untyped_defaults_to_message (data : Inbound) (freshId sid : Str)
    (state : AgentState) (h : data.type = none) :
    websocket_chat_step data freshId
        = websocket_chat_step
            { data with type := some "message".toList } freshId
    ∧ websocket_chat_session_step data sid state
        = websocket_chat_session_step
            { data with type := some "message".toList } sid state
    ∧ (strip (data.question.getD []) = [] →
        websocket_chat_step data freshId
            = ChatAction.send [Frame.error "Question cannot be empty".toList]
        ∧ websocket_chat_session_step data sid state
            = ChatAction.send [Frame.error "Question cannot be empty".toList])
    ∧ (strip (data.question.getD []) ≠ [] →
        websocket_chat_step data freshId
            = ChatAction.runTurn
                (if truthy data.session_id then data.session_id.getD []
                 else freshId)
                (data.user_id.getD "anonymous".toList)
                (strip (data.question.getD [])) data.user_email
        ∧ websocket_chat_session_step data sid state
            = ChatAction.runTurn sid
                (data.user_id.getD (state.user_id.getD "anonymous".toList))
                (strip (data.question.getD [])) data.user_email)
    ∧ (∀ q : Str, (∀ c ∈ q, isSpace c) → strip q = []) := by
  rcases data with ⟨ty, si, ui, ue, qu⟩
  simp only [Inbound.type] at h
  subst h
  refine ⟨rfl, rfl, ?_, ?_, fun q hq => strip_of_all_space q hq⟩
  · intro hq
    simp only [Inbound.question] at hq
    constructor
    · unfold websocket_chat_step
      simp only [Option.getD_none, Inbound.question]
      rw [if_neg (by decide)]
      simp [hq]
    · unfold websocket_chat_session_step
      simp only [Option.getD_none, Inbound.question]
      rw [if_neg (by decide)]
      simp [hq]
  · intro hq
    simp only [Inbound.question] at hq
    constructor
    · unfold websocket_chat_step
      simp only [Option.getD_none, Inbound.question, Inbound.session_id,
        Inbound.user_id, Inbound.user_email]
      rw [if_neg (by decide)]
      simp [hq]
    · unfold websocket_chat_session_step
      simp only [Option.getD_none, Inbound.question, Inbound.user_id,
        Inbound.user_email]
      rw [if_neg (by decide)]
      simp [hq]

/-- C10 witness: an untyped frame with a whitespace-only question gets
the empty-question error frame on the `/chat` endpoint. -/
theorem C10_untyped_defaults_witness :
    websocket_chat_step { question := some (' ' :: []) } ('f' :: [])
      = ChatAction.send [Frame.error "Question cannot be empty".toList] := by
  have h := C10_untyped_defaults_to_message { question := some (' ' :: []) }
    ('f' :: []) ('s' :: []) {} rfl
  exact (h.2.2.1 (by decide)).1
